import Mathlib

/-
Verification of the frame-overlay and video-encoding pipeline in
add_icons.py (functions create_icon_overlay, get_ffmpeg_command and
process_video).  The Python code is shallowly embedded: pure fragments
become Lean functions, exceptions become the Except monad, and the
effectful run of process_video becomes a function from an explicit
environment (decoder outcomes, probe outcomes, subprocess exit codes)
to a trace of the observable events of the run.
-/

/-- The single exception class that the embedded fragments can raise on
their own: ZeroDivisionError, raised by the Python division operators
when the divisor is zero. -/
inductive PyExc where
  | zeroDivision
deriving DecidableEq, Repr

/-- Python integer floor division a // b: raises ZeroDivisionError when
b = 0 (the embedded code only ever divides non-negative values). -/
def pyFloorDiv (a b : Nat) : Except PyExc Nat :=
  if b = 0 then .error .zeroDivision else .ok (a / b)

/-- Lines 49-51 of add_icons.py: if frames_per_action is None and
total_frames is not None, frames_per_action = total_frames // len(action_list).
Any other combination leaves frames_per_action unchanged. -/
def calc_frames_per_action (frames_per_action total_frames : Option Nat)
    (numActions : Nat) : Except PyExc (Option Nat) :=
  match frames_per_action, total_frames with
  | none, some t =>
      match pyFloorDiv t numActions with
      | .error e => .error e
      | .ok f => .ok (some f)
  | fpa, _ => .ok fpa

/-- Python str.lower() for the ASCII action labels of this program:
lowercases every character of the string. -/
def py_lower (s : String) : String :=
  String.mk (s.data.map Char.toLower)

/-- Lines 53-61 of add_icons.py, the action-schedule mapper: under the
Python truthiness test "if frames_per_action:" (false for both None and 0)
it computes action_index = frame_number // frames_per_action and returns
action_list[action_index].lower() when the index is in range, otherwise
no action (Python None). -/
def map_action (action_list : List String) (frame_number : Nat) :
    Option Nat → Except PyExc (Option String)
  | some f =>
      if f = 0 then .ok none
      else
        match pyFloorDiv frame_number f with
        | .error e => .error e
        | .ok idx =>
            if h : idx < action_list.length then
              .ok (some (py_lower (action_list.get ⟨idx, h⟩)))
            else
              .ok none
  | none => .ok none

/-- Lines 49-61 of create_icon_overlay: the label-selection part of the
overlay, the composition of the frames_per_action calculation and the
mapper. -/
def current_action (action_list : List String) (frame_number : Nat)
    (frames_per_action total_frames : Option Nat) : Except PyExc (Option String) :=
  match calc_frames_per_action frames_per_action total_frames action_list.length with
  | .error e => .error e
  | .ok fpa => map_action action_list frame_number fpa

/-- The four icon keys of the overlay (the dict keys at lines 41-46). -/
inductive IconKey where
  | w | a | s | d
deriving DecidableEq, Repr

/-- Lines 33-46 of create_icon_overlay: icon geometry constants. -/
def icon_size : Nat := 80

/-- Half the icon side, used for the rectangle corners (line 35). -/
def icon_radius : Int := 40

/-- Horizontal and vertical distance between icon centers (line 36). -/
def icon_spacing : Int := 100

/-- Lines 37-46 of create_icon_overlay: the icon center positions as a
function of the frame width and height only.  center_x = width // 2,
icon_y_offset = height - 150 (Python int subtraction, may be negative,
hence Int). -/
def icon_positions (width height : Nat) : IconKey → Int × Int :=
  fun k =>
    let center_x : Int := (width / 2 : Nat)
    let icon_y_offset : Int := (height : Int) - 150
    match k with
    | .w => (center_x - icon_spacing, icon_y_offset - icon_spacing)
    | .a => (center_x - icon_spacing, icon_y_offset)
    | .s => (center_x, icon_y_offset)
    | .d => (center_x + icon_spacing, icon_y_offset)

/-- Lines 79-80 of create_icon_overlay: the filled rectangle drawn for an
icon centered at p spans from (x - icon_radius, y - icon_radius) to
(x + icon_radius, y + icon_radius). -/
def icon_rect (p : Int × Int) : (Int × Int) × (Int × Int) :=
  ((p.1 - icon_radius, p.2 - icon_radius), (p.1 + icon_radius, p.2 + icon_radius))

/-- Lines 166, 213, 244 of get_ffmpeg_command: the Python test
"if ffmpeg_version and ffmpeg_version >= 5" (None and 0 are falsy). -/
def ffmpeg_tier5 (version : Option Nat) : Bool :=
  match version with
  | some v => decide (5 ≤ v) && decide (v ≠ 0)
  | none => false

/-- Lines 149-163 (and the identical 199-210, 230-241) of
get_ffmpeg_command: the codec-level selection.  The probe is the result
of running the codec-listing command: none means the invocation raised
(the bare except branch, which uses libx264 anyway), some b means it
returned with b recording whether the string libx264 occurs in its
stdout. -/
def codec_args (probe : Option Bool) : List String :=
  match probe with
  | some true => ["-c:v", "libx264", "-crf", "23"]
  | some false => ["-q:v", "3"]
  | none => ["-c:v", "libx264", "-crf", "23"]

/-- Lines 117-249 of add_icons.py, get_ffmpeg_command: builds the
external-encoder argument list.  output_ext is the lowercased extension
os.path.splitext(output_path)[1].lower(); version is the result of
get_ffmpeg_version (none on absence or parse failure); probe is the
codec-listing probe outcome as in codec_args; fps_arg is str(fps). -/
def get_ffmpeg_command (output_ext : String) (version : Option Nat)
    (probe : Option Bool) (input_pattern output_path fps_arg : String)
    (width height : Nat) : List String :=
  let scale_arg : String := "scale=" ++ toString width ++ ":" ++ toString height
  if output_ext = ".mp4" then
    ["ffmpeg", "-y", "-framerate", fps_arg, "-i", input_pattern,
     "-pix_fmt", "yuv420p", "-vf", scale_arg]
    ++ codec_args probe
    ++ (if ffmpeg_tier5 version then ["-preset", "medium", "-movflags", "+faststart"] else [])
    ++ [output_path]
  else if output_ext = ".webm" then
    ["ffmpeg", "-y", "-framerate", fps_arg, "-i", input_pattern,
     "-c:v", "libvpx-vp9", "-crf", "30", "-b:v", "0",
     "-pix_fmt", "yuv420p", "-vf", scale_arg, output_path]
  else if output_ext = ".avi" then
    ["ffmpeg", "-y", "-framerate", fps_arg, "-i", input_pattern,
     "-pix_fmt", "yuv420p", "-vf", scale_arg]
    ++ codec_args probe
    ++ (if ffmpeg_tier5 version then ["-preset", "medium"] else [])
    ++ [output_path]
  else
    ["ffmpeg", "-y", "-framerate", fps_arg, "-i", input_pattern,
     "-pix_fmt", "yuv420p", "-vf", scale_arg]
    ++ codec_args probe
    ++ (if ffmpeg_tier5 version then ["-preset", "medium", "-movflags", "+faststart"] else [])
    ++ [output_path]

/-- Argument tokens whose presence or absence in a built command the
container-level claims inspect; the free-string inputs of a command are
assumed distinct from them. -/
def flag_tokens : List String := ["libx264", "-q:v", "-preset", "-movflags"]

/-- The environment of one process_video run: everything the outside
world (decoder, filesystem, subprocesses) answers during the run.  One
field per interaction site of add_icons.py lines 251-396. -/
structure Env where
  /-- cap.isOpened() after cv2.VideoCapture(input_video_path), line 264. -/
  capOpens : Bool
  /-- int(cap.get(CAP_PROP_FRAME_WIDTH)), line 269. -/
  width : Nat
  /-- int(cap.get(CAP_PROP_FRAME_HEIGHT)), line 270. -/
  height : Nat
  /-- int(cap.get(CAP_PROP_FRAME_COUNT)), line 271; 0 means unknown. -/
  totalFrames : Nat
  /-- cap.get(CAP_PROP_FPS), line 272, the measured source frame rate. -/
  measuredFps : ℚ
  /-- The fps parameter of process_video (the caller frame rate hint). -/
  fpsHint : ℚ
  /-- The action_list parameter. -/
  actionList : List String
  /-- The frames_per_action parameter (None when unspecified). -/
  framesPerAction : Option Nat
  /-- The successive boolean results ret of cap.read() in the render
  loop, line 293: true means the frame decoded, false means decode
  failure or end of stream (indistinguishable to the caller). -/
  decodeStream : List Bool
  /-- Whether cv2.imwrite succeeds for the frame with the given index,
  line 302 (its boolean result is ignored by the code). -/
  saveOk : Nat → Bool
  /-- Whether subprocess.run(ffmpeg -version, check=True) at line 319
  succeeds; false means it raised FileNotFoundError or
  CalledProcessError. -/
  ffmpegAvailable : Bool
  /-- Result of get_ffmpeg_version (line 133): the parsed major version,
  none on failure. -/
  versionProbe : Option Nat
  /-- Outcome of the ffmpeg -codecs probe, as in codec_args. -/
  codecProbe : Option Bool
  /-- result.returncode of the main ffmpeg invocation, line 333. -/
  encodeReturncode : Nat
  /-- cap.isOpened() after the fallback reopen, line 350. -/
  reopenOk : Bool
  /-- out.isOpened() for the fallback cv2.VideoWriter, line 358. -/
  writerOpens : Bool
  /-- The successive ret results of cap.read() in the fallback loop,
  line 366. -/
  fallbackDecodeStream : List Bool
  /-- The output_video_path parameter. -/
  outputPath : String
  /-- os.path.splitext(output_video_path)[1].lower(), line 136. -/
  outputExt : String
  /-- The path of the temporary frame directory, line 288. -/
  tempDirPath : String

/-- How one process_video run ended, one constructor per return site of
lines 251-396 plus one for an exception escaping the function. -/
inductive Outcome where
  /-- Line 266: the input video could not be opened. -/
  | openFailed
  /-- Lines 335-337: the external encoder returned exit status 0. -/
  | primarySuccess
  /-- Lines 394-396: the generic except-branch caught an exception (in
  particular the Exception raised at line 341 on a non-zero exit) and
  the function returned. -/
  | ffmpegError (msg : String)
  /-- Line 352: the source could not be reopened for the fallback. -/
  | reopenFailed
  /-- Lines 359-361: the fallback VideoWriter did not open. -/
  | writerOpenFailed
  /-- Lines 386-388: the fallback loop completed. -/
  | fallbackSuccess
  /-- Lines 390-392: an exception inside the fallback block was caught. -/
  | fallbackFailed (e : PyExc)
  /-- An exception propagated out of process_video uncaught. -/
  | uncaught (e : PyExc)
deriving DecidableEq, Repr

/-- Observable trace of one process_video run. -/
structure RunTrace where
  outcome : Outcome
  /-- Whether the scoped temporary frame directory was ever created. -/
  tempDirCreated : Bool
  /-- Whether the temporary frame directory still exists when the run
  returns (normally or by exception). -/
  tempDirExistsAfter : Bool
  /-- How many times the temporary directory was recursively deleted. -/
  tempDirReleases : Nat
  /-- The fps value passed to get_ffmpeg_command (line 325), if reached. -/
  encoderFps : Option ℚ
  /-- The fps value the fallback cv2.VideoWriter was constructed with
  (line 356), if reached. -/
  writerFps : Option ℚ
  /-- The argument list of the external encoder invocation, if built. -/
  encoderCmd : Option (List String)
  /-- Indices of the frames successfully written to the temporary
  directory during the render loop. -/
  framesPersisted : List Nat
deriving Repr

/-- Lines 274-277 of process_video: frames_per_action = the parameter if
given, else total_frames // len(action_list). -/
def resolve_frames_per_action (framesPerAction : Option Nat)
    (totalFrames : Nat) (actionList : List String) : Except PyExc Nat :=
  match framesPerAction with
  | some f => .ok f
  | none => pyFloorDiv totalFrames actionList.length

/-- Lines 292-309 of process_video, the render loop, with accumulator:
count is the current frame_count, acc the reversed list of indices saved
so far.  A false decode result breaks the loop; after each processed
frame, when the incremented count is a multiple of 100 the progress
report divides it by total (ZeroDivisionError when total = 0). -/
def frame_loop_aux (saveOk : Nat → Bool) (total : Nat) :
    List Bool → Nat → List Nat → Except PyExc (Nat × List Nat)
  | [], count, acc => .ok (count, acc.reverse)
  | ret :: rest, count, acc =>
      if ret = false then .ok (count, acc.reverse)
      else
        let acc' := if saveOk count then count :: acc else acc
        let count' := count + 1
        if count' % 100 = 0 ∧ total = 0 then .error .zeroDivision
        else frame_loop_aux saveOk total rest count' acc'

/-- The render loop of process_video started at frame_count = 0. -/
def frame_loop (stream : List Bool) (saveOk : Nat → Bool) (total : Nat) :
    Except PyExc (Nat × List Nat) :=
  frame_loop_aux saveOk total stream 0 []

/-- Lines 364-381 of process_video, the fallback re-render loop: same
shape as the render loop but writing to the VideoWriter (whose result
is not inspected), with the same unguarded progress division. -/
def fallback_loop_aux (total : Nat) : List Bool → Nat → Except PyExc Nat
  | [], count => .ok count
  | ret :: rest, count =>
      if ret = false then .ok count
      else
        let count' := count + 1
        if count' % 100 = 0 ∧ total = 0 then .error .zeroDivision
        else fallback_loop_aux total rest count'

/-- The fallback loop started at frame_count = 0. -/
def fallback_loop (stream : List Bool) (total : Nat) : Except PyExc Nat :=
  fallback_loop_aux total stream 0

/-- The part of a RunTrace produced by the encode attempt. -/
structure PhaseRes where
  outcome : Outcome
  encoderFps : Option ℚ
  writerFps : Option ℚ
  encoderCmd : Option (List String)
deriving Repr

/-- Lines 343-392 of process_video: the fallback block entered when the
ffmpeg availability check raised FileNotFoundError or
CalledProcessError.  The VideoWriter is constructed with actual_fps
before its isOpened check; any exception inside the inner try (the
progress division of the re-render loop) is caught at line 390. -/
def fallback_phase (env : Env) : PhaseRes :=
  if env.reopenOk = false then
    { outcome := .reopenFailed, encoderFps := none, writerFps := none,
      encoderCmd := none }
  else if env.writerOpens = false then
    { outcome := .writerOpenFailed, encoderFps := none,
      writerFps := some env.measuredFps, encoderCmd := none }
  else
    match fallback_loop env.fallbackDecodeStream env.totalFrames with
    | .error e =>
        { outcome := .fallbackFailed e, encoderFps := none,
          writerFps := some env.measuredFps, encoderCmd := none }
    | .ok _ =>
        { outcome := .fallbackSuccess, encoderFps := none,
          writerFps := some env.measuredFps, encoderCmd := none }

/-- Lines 317-396 of process_video: the encode attempt.  When ffmpeg is
available, the command is built with the measured actual_fps (line 325)
and run; exit status 0 is success, anything else raises the plain
Exception of line 341, which only the generic handler of line 394
matches, so the function returns without entering the fallback block. -/
def encode_phase (env : Env) : PhaseRes :=
  if env.ffmpegAvailable = false then fallback_phase env
  else
    let cmd := get_ffmpeg_command env.outputExt env.versionProbe env.codecProbe
      (env.tempDirPath ++ "/frame_%06d.png") env.outputPath
      (toString env.measuredFps) env.width env.height
    if env.encodeReturncode = 0 then
      { outcome := .primarySuccess, encoderFps := some env.measuredFps,
        writerFps := none, encoderCmd := some cmd }
    else
      { outcome := .ffmpegError "FFmpeg failed",
        encoderFps := some env.measuredFps, writerFps := none,
        encoderCmd := some cmd }

/-- Lines 251-396 of add_icons.py, process_video: open the source
(return on failure), resolve frames_per_action (line 276, can raise),
print the duration total_frames/actual_fps (line 283, raises when the
measured fps is 0), then inside the scoped temporary directory run the
render loop and the encode attempt.  The with-statement of line 288
recursively deletes the temporary directory on every exit of its body,
normal or exceptional. -/
def process_video (env : Env) : RunTrace :=
  if env.capOpens = false then
    { outcome := .openFailed, tempDirCreated := false,
      tempDirExistsAfter := false, tempDirReleases := 0,
      encoderFps := none, writerFps := none, encoderCmd := none,
      framesPersisted := [] }
  else
    match resolve_frames_per_action env.framesPerAction env.totalFrames env.actionList with
    | .error e =>
        { outcome := .uncaught e, tempDirCreated := false,
          tempDirExistsAfter := false, tempDirReleases := 0,
          encoderFps := none, writerFps := none, encoderCmd := none,
          framesPersisted := [] }
    | .ok _ =>
        if env.measuredFps = 0 then
          { outcome := .uncaught .zeroDivision, tempDirCreated := false,
            tempDirExistsAfter := false, tempDirReleases := 0,
            encoderFps := none, writerFps := none, encoderCmd := none,
            framesPersisted := [] }
        else
          match frame_loop env.decodeStream env.saveOk env.totalFrames with
          | .error e =>
              { outcome := .uncaught e, tempDirCreated := true,
                tempDirExistsAfter := false, tempDirReleases := 1,
                encoderFps := none, writerFps := none, encoderCmd := none,
                framesPersisted := [] }
          | .ok (_, persisted) =>
              let p := encode_phase env
              { outcome := p.outcome, tempDirCreated := true,
                tempDirExistsAfter := false, tempDirReleases := 1,
                encoderFps := p.encoderFps, writerFps := p.writerFps,
                encoderCmd := p.encoderCmd, framesPersisted := persisted }

/-- A run in which the external encoder is invocable and every probe
succeeds, but the encoder invocation returns exit status 1. -/
def env_nonzero_exit : Env :=
  { capOpens := true, width := 640, height := 480, totalFrames := 10,
    measuredFps := 24, fpsHint := 24, actionList := ["w"],
    framesPerAction := some 2, decodeStream := List.replicate 10 true,
    saveOk := fun _ => true, ffmpegAvailable := true,
    versionProbe := some 4, codecProbe := some true, encodeReturncode := 1,
    reopenOk := true, writerOpens := true,
    fallbackDecodeStream := List.replicate 10 true,
    outputPath := "out.mp4", outputExt := ".mp4", tempDirPath := "/tmp/frames" }

/-- A run in which the external encoder is not invocable, so the
fallback writer is used; the caller hint (24) differs from the source
measured frame rate (30). -/
def env_hint_differs : Env :=
  { capOpens := true, width := 640, height := 480, totalFrames := 10,
    measuredFps := 30, fpsHint := 24, actionList := ["w"],
    framesPerAction := some 2, decodeStream := List.replicate 10 true,
    saveOk := fun _ => true, ffmpegAvailable := false,
    versionProbe := none, codecProbe := none, encodeReturncode := 0,
    reopenOk := true, writerOpens := true,
    fallbackDecodeStream := List.replicate 10 true,
    outputPath := "out.mp4", outputExt := ".mp4", tempDirPath := "/tmp/frames" }

/-- A run whose source delivers a decodable frame, then a frame that
fails to decode, then another decodable frame. -/
def env_decode_gap : Env :=
  { capOpens := true, width := 640, height := 480, totalFrames := 3,
    measuredFps := 24, fpsHint := 24, actionList := ["w"],
    framesPerAction := some 1, decodeStream := [true, false, true],
    saveOk := fun _ => true, ffmpegAvailable := true,
    versionProbe := some 5, codecProbe := some true, encodeReturncode := 0,
    reopenOk := true, writerOpens := true,
    fallbackDecodeStream := [true, false, true],
    outputPath := "out.mp4", outputExt := ".mp4", tempDirPath := "/tmp/frames" }

/-- A run whose source opens and delivers 100 decodable frames but
reports a total frame count of 0. -/
def env_zero_total : Env :=
  { capOpens := true, width := 640, height := 480, totalFrames := 0,
    measuredFps := 24, fpsHint := 24, actionList := ["w"],
    framesPerAction := none, decodeStream := List.replicate 100 true,
    saveOk := fun _ => true, ffmpegAvailable := true,
    versionProbe := some 5, codecProbe := some true, encodeReturncode := 0,
    reopenOk := true, writerOpens := true,
    fallbackDecodeStream := [],
    outputPath := "out.mp4", outputExt := ".mp4", tempDirPath := "/tmp/frames" }

example : current_action ["w", "a", "s", "d"] 24 none (some 100) = .ok (some "w") := rfl
example : current_action ["w", "a", "s", "d"] 25 none (some 100) = .ok (some "a") := rfl
example : current_action ["w", "a", "s", "d"] 99 none (some 100) = .ok (some "d") := rfl
example : current_action ["w", "a", "s", "d"] 100 none (some 100) = .ok none := rfl
example : calc_frames_per_action none (some 100) 4 = .ok (some 25) := rfl
example : map_action ["w"] 7 (some 0) = .ok none := rfl
example : icon_positions 400 300 .w = (100, 50) := by decide
example : icon_positions 400 300 .s = (200, 150) := by decide

/-- C4: for every frame index, positive frames_per_action and non-empty
action list, the mapper returns the lowercased action at index
frame_index // frames_per_action when that index is in range and no
label otherwise (non-cyclic); moreover for frame_count 100 and actions
w a s d with frames_per_action unspecified, the computed
frames_per_action is 25 and the active label is w at frame 24, a at
frame 25 and d at frame 99. -/
theorem current_action_schedule_map (action_list : List String)
    (frame_number fpa : Nat) (total : Option Nat)
    (hne : action_list ≠ []) (hpos : 0 < fpa) :
    current_action action_list frame_number (some fpa) total =
      .ok ((action_list[frame_number / fpa]?).map py_lower)
    ∧ calc_frames_per_action none (some 100) 4 = .ok (some 25)
    ∧ current_action ["w", "a", "s", "d"] 24 none (some 100) = .ok (some "w")
    ∧ current_action ["w", "a", "s", "d"] 25 none (some 100) = .ok (some "a")
    ∧ current_action ["w", "a", "s", "d"] 99 none (some 100) = .ok (some "d") := by
  refine ⟨?_, rfl, rfl, rfl, rfl⟩
  have hf : fpa ≠ 0 := Nat.pos_iff_ne_zero.mp hpos
  unfold current_action calc_frames_per_action map_action pyFloorDiv
  by_cases h : frame_number / fpa < action_list.length
  · simp [hf, h, List.getElem?_eq_getElem h]
  · simp [hf, h, List.getElem?_eq_none (Nat.le_of_not_lt h)]

/-- Witness for current_action_schedule_map at a concrete input. -/
theorem current_action_schedule_map_witness :
    (["W", "A"] : List String) ≠ [] ∧ 0 < 3
    ∧ current_action ["W", "A"] 4 (some 3) none =
        .ok (((["W", "A"] : List String)[4 / 3]?).map py_lower) := by
  refine ⟨by decide, by decide, ?_⟩
  exact (current_action_schedule_map ["W", "A"] 4 3 none (by decide) (by decide)).1

/-- C5: for every frame index and non-empty action list, a
frames_per_action of 0 or of None makes the mapper return no label, and
no division error is raised. -/
theorem map_action_degenerate_none (action_list : List String)
    (frame_number : Nat) (hne : action_list ≠ []) :
    map_action action_list frame_number (some 0) = .ok none
    ∧ map_action action_list frame_number none = .ok none :=
  ⟨rfl, rfl⟩

/-- Witness for map_action_degenerate_none at a concrete input. -/
theorem map_action_degenerate_none_witness :
    (["w"] : List String) ≠ []
    ∧ (map_action ["w"] 7 (some 0) = .ok none
       ∧ map_action ["w"] 7 none = .ok none) :=
  ⟨by decide, map_action_degenerate_none ["w"] 7 (by decide)⟩

/-- C9 counterexample: at frame size 400x300 the upper icon (w) does not
share its x coordinate with the center element (s) of the lower row, so
it is not directly above the center element; it is directly above the
left element (a) instead. -/
theorem icon_positions_upper_not_above_center :
    (icon_positions 400 300 .w).1 ≠ (icon_positions 400 300 .s).1
    ∧ (icon_positions 400 300 .w).1 = (icon_positions 400 300 .a).1
    ∧ (icon_positions 400 300 .w).2 < (icon_positions 400 300 .a).2 := by
  decide

/-- C9 amended: the renderer composites four fixed-size 80px square
icons at positions derived only from frame width and height, offset
from the bottom-center (the center element of the row sits at
x = width // 2, y = height - 150), with the left, center and right
elements in a row 100px apart and the upper element directly above the
LEFT element of that row, 100px higher. -/
theorem icon_positions_cluster_layout (width height : Nat) :
    (icon_positions width height .a).2 = (icon_positions width height .s).2
    ∧ (icon_positions width height .d).2 = (icon_positions width height .s).2
    ∧ (icon_positions width height .a).1 = (icon_positions width height .s).1 - icon_spacing
    ∧ (icon_positions width height .d).1 = (icon_positions width height .s).1 + icon_spacing
    ∧ (icon_positions width height .w).1 = (icon_positions width height .a).1
    ∧ (icon_positions width height .w).2 = (icon_positions width height .a).2 - icon_spacing
    ∧ (icon_positions width height .s).1 = ((width / 2 : Nat) : Int)
    ∧ (icon_positions width height .s).2 = (height : Int) - 150
    ∧ (∀ k : IconKey,
        (icon_rect (icon_positions width height k)).2.1
          - (icon_rect (icon_positions width height k)).1.1 = (icon_size : Int)
        ∧ (icon_rect (icon_positions width height k)).2.2
          - (icon_rect (icon_positions width height k)).1.2 = (icon_size : Int)) := by
  refine ⟨rfl, rfl, rfl, rfl, rfl, ?_, rfl, rfl, ?_⟩
  · simp [icon_positions]
  · intro k
    cases k <;> constructor <;>
      simp [icon_rect, icon_positions, icon_radius, icon_size]

/-- The render loop with a non-zero reported total never raises: it
returns the length of the longest decodable leading segment of the
stream as the final frame count, and the indices of that segment whose
save succeeded as the persisted frames. -/
theorem frame_loop_aux_characterization (saveOk : Nat → Bool) (total : Nat)
    (htot : total ≠ 0) (stream : List Bool) :
    ∀ (count : Nat) (acc : List Nat),
      frame_loop_aux saveOk total stream count acc =
        .ok (count + (stream.takeWhile id).length,
             acc.reverse ++ (List.range' count (stream.takeWhile id).length).filter saveOk) := by
  induction stream with
  | nil => intro count acc; simp [frame_loop_aux]
  | cons ret rest ih =>
      intro count acc
      cases ret with
      | false => simp [frame_loop_aux, List.takeWhile_cons]
      | true =>
          rw [frame_loop_aux]
          simp only [List.takeWhile_cons, id, if_pos rfl]
          have hguard : ¬((count + 1) % 100 = 0 ∧ total = 0) := fun hc => htot hc.2
          rw [if_neg hguard, ih]
          by_cases hs : saveOk count
          · simp [hs, List.range'_succ, List.filter_cons_of_pos, Nat.add_comm,
                  Nat.add_assoc, Nat.add_left_comm]
          · simp [hs, List.range'_succ, List.filter_cons_of_neg, Nat.add_comm,
                  Nat.add_assoc, Nat.add_left_comm]

/-- C8 amended: during RenderLoop, a frame that fails to decode ends the
loop (it is treated like the end of the stream, and no later frame is
processed); a frame whose save fails is silently skipped, without any
logging, and the loop continues.  Formally: with a non-zero reported
total, the loop returns the length of the longest decodable leading
segment, and persists exactly the indices in that segment whose save
succeeded. -/
theorem frame_loop_stops_at_first_failure (stream : List Bool)
    (saveOk : Nat → Bool) (total : Nat) (htot : total ≠ 0) :
    frame_loop stream saveOk total =
      .ok ((stream.takeWhile id).length,
           (List.range (stream.takeWhile id).length).filter saveOk) := by
  rw [frame_loop, frame_loop_aux_characterization saveOk total htot stream 0 []]
  simp [List.range_eq_range']

/-- Witness for frame_loop_stops_at_first_failure at a concrete input. -/
theorem frame_loop_stops_at_first_failure_witness :
    (5 : Nat) ≠ 0
    ∧ frame_loop [true, false] (fun _ => true) 5 =
        .ok ((([true, false] : List Bool).takeWhile id).length,
             (List.range (([true, false] : List Bool).takeWhile id).length).filter
               (fun _ => true)) :=
  ⟨by decide, frame_loop_stops_at_first_failure [true, false] (fun _ => true) 5 (by decide)⟩

/-- C8 counterexample: in a run whose source yields a decodable frame,
then a decode failure, then another decodable frame, the pipeline
persists only frame 0: the loop stops at the failed frame instead of
skipping it and continuing with the next one, and no index is logged. -/
theorem process_video_decode_failure_stops_loop :
    (process_video env_decode_gap).framesPersisted = [0]
    ∧ (2 : Nat) ∉ (process_video env_decode_gap).framesPersisted
    ∧ env_decode_gap.decodeStream = [true, false, true] := by
  refine ⟨rfl, ?_, rfl⟩
  decide

/-- C3: whatever the outcome of a run of process_video (success,
fallback success, terminal failure, or an escaping exception), the
scoped temporary frame directory does not exist after the run returns,
and it is released exactly once whenever it was created. -/
theorem process_video_temp_dir_released (env : Env) :
    (process_video env).tempDirExistsAfter = false
    ∧ (process_video env).tempDirReleases =
        (if (process_video env).tempDirCreated then 1 else 0) := by
  unfold process_video
  split
  · simp
  · split
    · simp
    · split
      · simp
      · split <;> simp

/-- Both fps fields an encode attempt can record are the measured source
frame rate: the external command is built with actual_fps (line 325) and
the fallback VideoWriter is constructed with actual_fps (line 356). -/
theorem encode_phase_fps_measured (env : Env) :
    ((encode_phase env).encoderFps = none
     ∨ (encode_phase env).encoderFps = some env.measuredFps)
    ∧ ((encode_phase env).writerFps = none
       ∨ (encode_phase env).writerFps = some env.measuredFps) := by
  unfold encode_phase fallback_phase
  split
  · split
    · simp
    · split
      · simp
      · split <;> simp
  · split <;> simp

/-- C7 corrected: the caller frame rate hint is not used at all; the
run is unchanged under any hint, and both the external encoder command
and the fallback writer use the measured source frame rate. -/
theorem process_video_fps_hint_unused (env : Env) (q : ℚ) :
    process_video { env with fpsHint := q } = process_video env
    ∧ ((process_video env).encoderFps = none
       ∨ (process_video env).encoderFps = some env.measuredFps)
    ∧ ((process_video env).writerFps = none
       ∨ (process_video env).writerFps = some env.measuredFps) := by
  refine ⟨rfl, ?_⟩
  unfold process_video
  split
  · simp
  · split
    · simp
    · split
      · simp
      · split
        · simp
        · exact ⟨(encode_phase_fps_measured env).1, (encode_phase_fps_measured env).2⟩

/-- C7 counterexample: in a run where the external encoder is not
invocable, the fallback writer is opened with the measured source frame
rate (30), not with the caller hint (24). -/
theorem process_video_writer_fps_not_hint :
    (process_video env_hint_differs).writerFps = some env_hint_differs.measuredFps
    ∧ (process_video env_hint_differs).writerFps ≠ some env_hint_differs.fpsHint := by
  refine ⟨rfl, ?_⟩
  intro h
  have h30 : (30 : ℚ) = 24 := Option.some.inj h
  norm_num at h30

/-- With a reported total of 0, the render loop raises ZeroDivisionError
at the first frame whose incremented count is a multiple of 100: if n
more decodable frames bring the count to exactly 100, the loop errors. -/
theorem frame_loop_aux_error_at_100 (saveOk : Nat → Bool) :
    ∀ (stream : List Bool) (n count : Nat) (acc : List Nat),
      0 < n → count + n = 100 → n ≤ (stream.takeWhile id).length →
      frame_loop_aux saveOk 0 stream count acc = .error .zeroDivision := by
  intro stream
  induction stream with
  | nil =>
      intro n count acc hn hsum hlen
      simp at hlen
      omega
  | cons ret rest ih =>
      intro n count acc hn hsum hlen
      cases ret with
      | false =>
          simp [List.takeWhile_cons] at hlen
          omega
      | true =>
          have hlen2 : n ≤ (List.takeWhile id rest).length + 1 := by
            simpa [List.takeWhile_cons] using hlen
          rw [frame_loop_aux]
          rw [if_neg (by simp : ¬(true = false))]
          rcases Nat.eq_or_lt_of_le hn with h1 | h2
          · have hc : (count + 1) % 100 = 0 := by omega
            rw [if_pos ⟨hc, rfl⟩]
          · have hc : ¬((count + 1) % 100 = 0 ∧ (0 : Nat) = 0) := by
              intro hcc
              obtain ⟨hc1, _⟩ := hcc
              omega
            rw [if_neg hc]
            exact ih (n - 1) (count + 1) _ (by omega) (by omega) (by omega)

/-- Any run of the render loop over at most 99 frames (from count 0)
returns normally whatever the reported total: the progress division is
only reached at multiples of 100. -/
theorem frame_loop_aux_ok_short (saveOk : Nat → Bool) (total : Nat) :
    ∀ (stream : List Bool) (count : Nat) (acc : List Nat),
      count + stream.length ≤ 99 →
      ∃ r, frame_loop_aux saveOk total stream count acc = .ok r := by
  intro stream
  induction stream with
  | nil => intro count acc _; exact ⟨_, rfl⟩
  | cons ret rest ih =>
      intro count acc hlen
      cases ret with
      | false => exact ⟨_, rfl⟩
      | true =>
          rw [frame_loop_aux]
          rw [if_neg (by simp : ¬(true = false))]
          have hc : ¬((count + 1) % 100 = 0 ∧ total = 0) := by
            intro hcc
            obtain ⟨hc1, _⟩ := hcc
            have hlt : count + 1 < 100 := by
              simp at hlen
              omega
            omega
          rw [if_neg hc]
          refine ih (count + 1) _ ?_
          simp at hlen
          omega

/-- With a non-empty action list, resolving frames_per_action never
raises (lines 274-277). -/
theorem resolve_frames_per_action_ok (fpa : Option Nat) (total : Nat)
    (al : List String) (h : al ≠ []) :
    ∃ f, resolve_frames_per_action fpa total al = .ok f := by
  cases fpa with
  | some f => exact ⟨f, rfl⟩
  | none =>
      refine ⟨total / al.length, ?_⟩
      have hlen : al.length ≠ 0 := fun hh => h (List.length_eq_zero.mp hh)
      unfold resolve_frames_per_action pyFloorDiv
      rw [if_neg hlen]

/-- C10: for every source that opens, reports a total frame count of 0,
has a non-zero measured frame rate and still delivers at least 100
decodable frames (with a non-empty action list), process_video ends
with an uncaught ZeroDivisionError: the render loop raises in the
progress computation when frame_count reaches 100 (the run over only
the first 99 frames would have returned normally). -/
theorem process_video_zero_total_division (env : Env)
    (hopen : env.capOpens = true) (hact : env.actionList ≠ [])
    (htot : env.totalFrames = 0) (hfps : env.measuredFps ≠ 0)
    (hdec : 100 ≤ (env.decodeStream.takeWhile id).length) :
    (process_video env).outcome = .uncaught .zeroDivision
    ∧ frame_loop env.decodeStream env.saveOk env.totalFrames = .error .zeroDivision
    ∧ ∃ r, frame_loop (env.decodeStream.take 99) env.saveOk env.totalFrames = .ok r := by
  have hloop : frame_loop env.decodeStream env.saveOk env.totalFrames
      = .error .zeroDivision := by
    rw [htot, frame_loop]
    exact frame_loop_aux_error_at_100 env.saveOk env.decodeStream 100 0 []
      (by omega) (by omega) hdec
  have hshort : ∃ r, frame_loop (env.decodeStream.take 99) env.saveOk
      env.totalFrames = .ok r := by
    rw [frame_loop]
    apply frame_loop_aux_ok_short
    simp [List.length_take]
  refine ⟨?_, hloop, hshort⟩
  obtain ⟨f, hf⟩ := resolve_frames_per_action_ok env.framesPerAction
    env.totalFrames env.actionList hact
  unfold process_video
  rw [hf, hloop]
  simp [hopen, hfps]

/-- Witness for process_video_zero_total_division at a concrete run. -/
theorem process_video_zero_total_division_witness :
    env_zero_total.capOpens = true
    ∧ env_zero_total.actionList ≠ []
    ∧ env_zero_total.totalFrames = 0
    ∧ env_zero_total.measuredFps ≠ 0
    ∧ 100 ≤ (env_zero_total.decodeStream.takeWhile id).length
    ∧ (process_video env_zero_total).outcome = .uncaught .zeroDivision :=
  ⟨rfl, by decide, rfl, by decide, by decide,
   (process_video_zero_total_division env_zero_total rfl (by decide) rfl
     (by decide) (by decide)).1⟩

/-- C1, evaluating the code at the failing input: in a run where the
external encoder is invocable but its invocation returns a non-zero
exit status, the run terminates through the generic exception handler
of line 394 (the Exception raised at line 341 matches neither
FileNotFoundError nor CalledProcessError), and the fallback writer is
never constructed: the pipeline does not transition to FallbackEncode. -/
theorem process_video_nonzero_exit_terminal :
    env_nonzero_exit.ffmpegAvailable = true
    ∧ env_nonzero_exit.encodeReturncode ≠ 0
    ∧ (process_video env_nonzero_exit).outcome = .ffmpegError "FFmpeg failed"
    ∧ (process_video env_nonzero_exit).writerFps = none :=
  ⟨rfl, by decide, rfl, rfl⟩

/-- The scale filter argument always starts with the character s. -/
theorem scale_arg_head (t u v : String) :
    ("scale=" ++ t ++ u ++ v).data.head? = some (Char.ofNat 115) := rfl

/-- A token whose first character is not s is never the scale filter
argument. -/
theorem ne_scale_of_head (tok t u v : String)
    (h : tok.data.head? ≠ some (Char.ofNat 115)) :
    tok ≠ "scale=" ++ t ++ u ++ v := by
  intro he
  apply h
  rw [he]
  exact scale_arg_head t u v

/-- C2 counterexample: when building an mp4 command and the
codec-availability probe itself fails (probe outcome none), the
resulting argument list uses the primary codec libx264 with its fixed
quality, not the generic quality-based argument. -/
theorem get_ffmpeg_command_probe_failure_uses_libx264 :
    "libx264" ∈ get_ffmpeg_command ".mp4" (some 4) none "frame_%06d.png"
      "out.mp4" "24.0" 640 480
    ∧ "-q:v" ∉ get_ffmpeg_command ".mp4" (some 4) none "frame_%06d.png"
      "out.mp4" "24.0" 640 480 := by
  decide

/-- C2 amended: for mp4 and avi commands, the generic quality-based
codec argument is used exactly when the probe succeeds and reports the
primary codec absent; when the probe reports the codec present, and
also when the probe itself fails, the primary codec with its fixed
quality is used.  In every probe outcome exactly one of the two codec
paths appears. -/
theorem get_ffmpeg_command_codec_path_selection
    (output_ext : String) (version : Option Nat) (probe : Option Bool)
    (ip op fa : String) (w h : Nat)
    (hext : output_ext = ".mp4" ∨ output_ext = ".avi")
    (hip : ip ∉ flag_tokens) (hop : op ∉ flag_tokens) (hfa : fa ∉ flag_tokens) :
    (probe = some false →
       "-q:v" ∈ get_ffmpeg_command output_ext version probe ip op fa w h
       ∧ "libx264" ∉ get_ffmpeg_command output_ext version probe ip op fa w h)
    ∧ (probe ≠ some false →
       "libx264" ∈ get_ffmpeg_command output_ext version probe ip op fa w h
       ∧ "-q:v" ∉ get_ffmpeg_command output_ext version probe ip op fa w h) := by
  simp only [flag_tokens, List.mem_cons, List.not_mem_nil, or_false, not_or] at hip hop hfa
  obtain ⟨hip1, hip2, hip3, hip4⟩ := hip
  obtain ⟨hop1, hop2, hop3, hop4⟩ := hop
  obtain ⟨hfa1, hfa2, hfa3, hfa4⟩ := hfa
  constructor
  · intro hp
    subst hp
    have hs1 : "libx264" ≠ "scale=" ++ toString w ++ ":" ++ toString h :=
      ne_scale_of_head _ _ _ _ (by decide)
    rcases hext with he | he <;> subst he <;>
      cases htier : ffmpeg_tier5 version <;>
        simp [get_ffmpeg_command, codec_args, htier, Ne.symm hip1, Ne.symm hop1,
          Ne.symm hfa1, hs1]
  · intro hp
    have hcodec : codec_args probe = ["-c:v", "libx264", "-crf", "23"] := by
      rcases probe with _ | b
      · rfl
      · cases b
        · exact absurd rfl hp
        · rfl
    have hs2 : "-q:v" ≠ "scale=" ++ toString w ++ ":" ++ toString h :=
      ne_scale_of_head _ _ _ _ (by decide)
    rcases hext with he | he <;> subst he <;>
      cases htier : ffmpeg_tier5 version <;>
        simp [get_ffmpeg_command, hcodec, htier, Ne.symm hip2, Ne.symm hop2,
          Ne.symm hfa2, hs2]

/-- Witness for get_ffmpeg_command_codec_path_selection at concrete
inputs. -/
theorem get_ffmpeg_command_codec_path_selection_witness :
    ((".mp4" : String) = ".mp4" ∨ (".mp4" : String) = ".avi")
    ∧ ("in_%06d.png" : String) ∉ flag_tokens
    ∧ ("out.mp4" : String) ∉ flag_tokens
    ∧ ("24.0" : String) ∉ flag_tokens
    ∧ ((some false = some false →
          "-q:v" ∈ get_ffmpeg_command ".mp4" (some 5) (some false)
            "in_%06d.png" "out.mp4" "24.0" 640 480
          ∧ "libx264" ∉ get_ffmpeg_command ".mp4" (some 5) (some false)
            "in_%06d.png" "out.mp4" "24.0" 640 480)
       ∧ (some false ≠ some false →
          "libx264" ∈ get_ffmpeg_command ".mp4" (some 5) (some false)
            "in_%06d.png" "out.mp4" "24.0" 640 480
          ∧ "-q:v" ∉ get_ffmpeg_command ".mp4" (some 5) (some false)
            "in_%06d.png" "out.mp4" "24.0" 640 480)) :=
  ⟨Or.inl rfl, by decide, by decide, by decide,
   get_ffmpeg_command_codec_path_selection ".mp4" (some 5) (some false)
     "in_%06d.png" "out.mp4" "24.0" 640 480 (Or.inl rfl) (by decide)
     (by decide) (by decide)⟩

/-- C6: a webm command is always the fixed list with the alternate codec
at quality 30 and bitrate 0, with no primary-codec probing or fallback
arguments and no tier flags, regardless of version tier; an mp4 command
below tier 5 (or with unknown version) has neither the preset nor the
fast-start muxer flag, and with tier 5 it has both; an avi command with
tier 5 has the preset and never the fast-start flag. -/
theorem get_ffmpeg_command_container_flags
    (version : Option Nat) (probe : Option Bool) (ip op fa : String) (w h : Nat)
    (hip : ip ∉ flag_tokens) (hop : op ∉ flag_tokens) (hfa : fa ∉ flag_tokens) :
    (get_ffmpeg_command ".webm" version probe ip op fa w h =
      ["ffmpeg", "-y", "-framerate", fa, "-i", ip, "-c:v", "libvpx-vp9",
       "-crf", "30", "-b:v", "0", "-pix_fmt", "yuv420p", "-vf",
       "scale=" ++ toString w ++ ":" ++ toString h, op])
    ∧ "libvpx-vp9" ∈ get_ffmpeg_command ".webm" version probe ip op fa w h
    ∧ "libx264" ∉ get_ffmpeg_command ".webm" version probe ip op fa w h
    ∧ "-q:v" ∉ get_ffmpeg_command ".webm" version probe ip op fa w h
    ∧ "-preset" ∉ get_ffmpeg_command ".webm" version probe ip op fa w h
    ∧ "-movflags" ∉ get_ffmpeg_command ".webm" version probe ip op fa w h
    ∧ (ffmpeg_tier5 version = false →
        "-preset" ∉ get_ffmpeg_command ".mp4" version probe ip op fa w h
        ∧ "-movflags" ∉ get_ffmpeg_command ".mp4" version probe ip op fa w h)
    ∧ (ffmpeg_tier5 version = true →
        "-preset" ∈ get_ffmpeg_command ".mp4" version probe ip op fa w h
        ∧ "-movflags" ∈ get_ffmpeg_command ".mp4" version probe ip op fa w h)
    ∧ (ffmpeg_tier5 version = true →
        "-preset" ∈ get_ffmpeg_command ".avi" version probe ip op fa w h)
    ∧ "-movflags" ∉ get_ffmpeg_command ".avi" version probe ip op fa w h := by
  simp only [flag_tokens, List.mem_cons, List.not_mem_nil, or_false, not_or] at hip hop hfa
  obtain ⟨hip1, hip2, hip3, hip4⟩ := hip
  obtain ⟨hop1, hop2, hop3, hop4⟩ := hop
  obtain ⟨hfa1, hfa2, hfa3, hfa4⟩ := hfa
  have hs1 : "libx264" ≠ "scale=" ++ toString w ++ ":" ++ toString h :=
    ne_scale_of_head _ _ _ _ (by decide)
  have hs2 : "-q:v" ≠ "scale=" ++ toString w ++ ":" ++ toString h :=
    ne_scale_of_head _ _ _ _ (by decide)
  have hs3 : "-preset" ≠ "scale=" ++ toString w ++ ":" ++ toString h :=
    ne_scale_of_head _ _ _ _ (by decide)
  have hs4 : "-movflags" ≠ "scale=" ++ toString w ++ ":" ++ toString h :=
    ne_scale_of_head _ _ _ _ (by decide)
  refine ⟨rfl, ?_, ?_, ?_, ?_, ?_, ?_, ?_, ?_, ?_⟩
  · simp [get_ffmpeg_command]
  · simp [get_ffmpeg_command, Ne.symm hip1, Ne.symm hop1, Ne.symm hfa1, hs1]
  · simp [get_ffmpeg_command, Ne.symm hip2, Ne.symm hop2, Ne.symm hfa2, hs2]
  · simp [get_ffmpeg_command, Ne.symm hip3, Ne.symm hop3, Ne.symm hfa3, hs3]
  · simp [get_ffmpeg_command, Ne.symm hip4, Ne.symm hop4, Ne.symm hfa4, hs4]
  · intro ht
    constructor <;>
      rcases probe with _ | b <;> try cases b
    all_goals
      simp [get_ffmpeg_command, codec_args, ht, Ne.symm hip3, Ne.symm hop3,
        Ne.symm hfa3, hs3, Ne.symm hip4, Ne.symm hop4, Ne.symm hfa4, hs4]
  · intro ht
    constructor <;> simp [get_ffmpeg_command, ht]
  · intro ht
    simp [get_ffmpeg_command, ht]
  · rcases probe with _ | b <;> try cases b
    all_goals
      cases htier : ffmpeg_tier5 version <;>
        simp [get_ffmpeg_command, codec_args, htier, Ne.symm hip4, Ne.symm hop4,
          Ne.symm hfa4, hs4]

/-- Witness for get_ffmpeg_command_container_flags at concrete inputs. -/
theorem get_ffmpeg_command_container_flags_witness :
    ("in_%06d.png" : String) ∉ flag_tokens
    ∧ ("out.webm" : String) ∉ flag_tokens
    ∧ ("24.0" : String) ∉ flag_tokens
    ∧ get_ffmpeg_command ".webm" (some 5) (some true) "in_%06d.png" "out.webm"
        "24.0" 640 480 =
      ["ffmpeg", "-y", "-framerate", "24.0", "-i", "in_%06d.png", "-c:v",
       "libvpx-vp9", "-crf", "30", "-b:v", "0", "-pix_fmt", "yuv420p", "-vf",
       "scale=" ++ toString 640 ++ ":" ++ toString 480, "out.webm"]
    ∧ (ffmpeg_tier5 (some 5) = true →
        "-preset" ∈ get_ffmpeg_command ".mp4" (some 5) (some true) "in_%06d.png"
          "out.webm" "24.0" 640 480
        ∧ "-movflags" ∈ get_ffmpeg_command ".mp4" (some 5) (some true)
          "in_%06d.png" "out.webm" "24.0" 640 480) :=
  ⟨by decide, by decide, by decide,
   (get_ffmpeg_command_container_flags (some 5) (some true) "in_%06d.png"
     "out.webm" "24.0" 640 480 (by decide) (by decide) (by decide)).1,
   (get_ffmpeg_command_container_flags (some 5) (some true) "in_%06d.png"
     "out.webm" "24.0" 640 480 (by decide) (by decide) (by decide)).2.2.2.2.2.2.2.1⟩
